import Mathlib

/-!
Verification of the viticulture-harvester ingestion core against its
natural-language specification.

The development shallowly embeds the Go sources:

* `internal/scheduler/scheduler.go` — job reconciliation (`InitializeJobs`,
  `ensureJob`, `createJob`) against an abstract external scheduler;
* `internal/service/*.go` and the service generations under `unnamed/` —
  per-kind observation services (date-range listing, create);
* `internal/db/db.go` — the store-level queries the services delegate to,
  including `GetVineyardWithEnvironmentalData` and `SaveSoilData`;
* `unnamed/part_003` (`satelliteservice.go`) — `ConcurrentSaveSatelliteData`.

External effects (the Cloud Scheduler API, SQL, object storage) are modelled
as oracle functions supplied as parameters; timestamps are integers; sleep
durations are integer second counts, recorded in traces instead of performed.
-/

set_option autoImplicit false

deriving instance DecidableEq for Except

namespace Viticulture

/-! ## Configuration (`internal/config/config.go`) -/

/-- `config.DataSourceConfig`: one external data source entry. -/
structure DataSourceConfig where
  enabled : Bool
  schedule : String
  timeZone : String
  httpMethod : String
  endpoint : String
  apiKey : String
  description : String
deriving Repr, DecidableEq

/-- `config.RetryPolicyConfig` (under `ingestionSettings`); note the scheduler
code never reads it. -/
structure RetryPolicyConfig where
  maxRetries : Nat
  backoffInterval : String
deriving Repr, DecidableEq

/-- The slice of `config.Config` the scheduler touches.  `dataSources` is a
Go map; we model it as an association list (iteration order is immaterial to
every property proved below). -/
structure Config where
  projectID : String
  locationID : String
  dataSources : List (String × DataSourceConfig)
  retryPolicy : RetryPolicyConfig
deriving Repr, DecidableEq

/-! ## Scheduler reconciliation (`internal/scheduler/scheduler.go`) -/

/-- Outcome of `Client.GetJob`: the Go code distinguishes `err == nil`
(found), `status.Code(err) == codes.NotFound`, and every other error. -/
inductive GetJobOutcome where
  | found
  | notFound
  | otherError (msg : String)
deriving Repr, DecidableEq

/-- Oracle for the external Cloud Scheduler: `getJob` is keyed by the fully
qualified job name; `createJob` additionally takes the 0-indexed attempt
number (`none` = success, `some msg` = failure), so that per-attempt
behaviour can be described. -/
structure SchedulerEnv where
  getJob : String → GetJobOutcome
  createJob : String → Nat → Option String

/-- The fully qualified job name built at the top of `ensureJob`:
`fmt.Sprintf("projects/%s/locations/%s/jobs/%s", ProjectID, LocationID, name)`.
The source name is used verbatim. -/
def jobName (cfg : Config) (name : String) : String :=
  "projects/" ++ cfg.projectID ++ "/locations/" ++ cfg.locationID ++ "/jobs/" ++ name

/-- Observable trace of one `ensureJob` run: whether it returned `nil`, how
many times `createJob` was called, the sleeps performed (seconds, in order),
and the error of the last failed creation attempt, if any. -/
structure EnsureTrace where
  ok : Bool
  createCalls : Nat
  sleeps : List Nat
  lastErr : Option String
deriving Repr, DecidableEq

/-- The creation retry loop of `ensureJob`:
`for i := 0; i < retryCount; i++ { if createJob() == nil return nil;
sleep(2^i seconds) }`.  `i` is the current attempt index, the second
argument the remaining iterations.  Note the loop sleeps after every failed
attempt, the last one included. -/
def createLoop (env : SchedulerEnv) (jn : String) : Nat → Nat → EnsureTrace
  | _, 0 => ⟨false, 0, [], none⟩
  | i, r + 1 =>
    match env.createJob jn i with
    | none => ⟨true, 1, [], none⟩
    | some e =>
      let rest := createLoop env jn (i + 1) r
      ⟨rest.ok, rest.createCalls + 1, 2 ^ i :: rest.sleeps, some (rest.lastErr.getD e)⟩

/-- `SchedulerClient.ensureJob`: look the job up; a non-NotFound error
returns immediately; a hit returns `nil`; only NotFound enters the creation
loop, whose bound is the hardcoded `retryCount := 3`. -/
def ensureJob (env : SchedulerEnv) (cfg : Config) (name : String) : EnsureTrace :=
  match env.getJob (jobName cfg name) with
  | .found => ⟨true, 0, [], none⟩
  | .otherError e => ⟨false, 0, [], some ("error checking job " ++ name ++ ": " ++ e)⟩
  | .notFound => createLoop env (jobName cfg name) 0 3

/-- Observable outcome of `InitializeJobs`: the function itself always
returns `nil`; `failed` are the sources whose `ensureJob` error it logged,
`succeeded` the enabled sources whose `ensureJob` returned `nil`. -/
structure InitResult where
  succeeded : List String
  failed : List String
deriving Repr, DecidableEq

/-- The loop body of `InitializeJobs` over the registry entries. -/
def initJobsAux (env : SchedulerEnv) (cfg : Config) :
    List (String × DataSourceConfig) → InitResult
  | [] => ⟨[], []⟩
  | p :: rest =>
    let r := initJobsAux env cfg rest
    if p.2.enabled then
      if (ensureJob env cfg p.1).ok then ⟨p.1 :: r.succeeded, r.failed⟩
      else ⟨r.succeeded, p.1 :: r.failed⟩
    else r

/-- `SchedulerClient.InitializeJobs`: ensure a job for every enabled source,
logging (never propagating) per-source failures. -/
def InitializeJobs (env : SchedulerEnv) (cfg : Config) : InitResult :=
  initJobsAux env cfg cfg.dataSources

/-- Total number of `CreateJob` calls a reconciliation run performs. -/
def totalCreateCalls (env : SchedulerEnv) (cfg : Config) : Nat :=
  ((cfg.dataSources.filter (fun p => p.2.enabled)).map
    (fun p => (ensureJob env cfg p.1).createCalls)).sum

/-- Job-name normalization as worded by the spec (§4.1 step 1): lower-case,
spaces replaced with hyphens.  No such function exists in the source; this
definition exists only to be compared against `jobName`. -/
def spec_normalizeName (s : String) : String :=
  ⟨s.data.map (fun c => if c = ' ' then '-' else c.toLower)⟩

/-! ## Observation rows (`internal/model/models.go`)

Each row keeps the identifier, the owning vineyard and the timestamp column
the date-range queries filter on; measurement and geometry columns play no
role in any verified property. -/

/-- `model.SoilData` (id, vineyard_id, sampled_at). -/
structure SoilRow where
  id : Int
  vineyardID : Int
  sampledAt : Int
deriving Repr, DecidableEq

/-- `model.PestData` (id, vineyard_id, observation_date). -/
structure PestRow where
  id : Int
  vineyardID : Int
  observationDate : Int
deriving Repr, DecidableEq

/-- `model.WeatherData` (id, vineyard_id, observation_time). -/
structure WeatherRow where
  id : Int
  vineyardID : Int
  observationTime : Int
deriving Repr, DecidableEq

/-- `model.Image` (id, vineyard_id, captured_at). -/
structure ImageRow where
  id : Int
  vineyardID : Int
  capturedAt : Int
deriving Repr, DecidableEq

/-- `model.SatelliteData` (id, vineyard_id, image_url, captured_at). -/
structure SatRow where
  id : Int
  vineyardID : Int
  imageURL : String
  capturedAt : Int
deriving Repr, DecidableEq

/-! ## Store-level date-range queries (`internal/db/db.go`)

Each query is `SELECT ... WHERE vineyard_id = $1 AND ts BETWEEN $2 AND $3`;
SQL `BETWEEN` is inclusive on both ends and matches nothing when the lower
bound exceeds the upper. -/

/-- `db.ListSoilDataByDateRange`. -/
def db_ListSoilDataByDateRange (table : List SoilRow) (vid startT endT : Int) :
    List SoilRow :=
  table.filter (fun r => decide (r.vineyardID = vid ∧ startT ≤ r.sampledAt ∧ r.sampledAt ≤ endT))

/-- `db.ListPestDataByDateRange`. -/
def db_ListPestDataByDateRange (table : List PestRow) (vid startT endT : Int) :
    List PestRow :=
  table.filter (fun r =>
    decide (r.vineyardID = vid ∧ startT ≤ r.observationDate ∧ r.observationDate ≤ endT))

/-- `db.ListWeatherDataByDateRange`. -/
def db_ListWeatherDataByDateRange (table : List WeatherRow) (vid startT endT : Int) :
    List WeatherRow :=
  table.filter (fun r =>
    decide (r.vineyardID = vid ∧ startT ≤ r.observationTime ∧ r.observationTime ≤ endT))

/-- `db.FindImagesByDateRange`. -/
def db_FindImagesByDateRange (table : List ImageRow) (vid startT endT : Int) :
    List ImageRow :=
  table.filter (fun r => decide (r.vineyardID = vid ∧ startT ≤ r.capturedAt ∧ r.capturedAt ≤ endT))

/-- `db.ListSatelliteImageryByDateRange`. -/
def db_ListSatelliteImageryByDateRange (table : List SatRow) (vid startT endT : Int) :
    List SatRow :=
  table.filter (fun r => decide (r.vineyardID = vid ∧ startT ≤ r.capturedAt ∧ r.capturedAt ≤ endT))

/-! ## Service-level date-range listings

`soilDataServiceImpl.ListSoilDataByDateRange` (both generations:
`internal/service/soildataservice.go` and the copy inside
`internal/service/satelliteservice.go`) checks only the vineyard id.  The
pest, weather, image and satellite (int-id generation) services additionally
reject `start.After(end)`.  `start.After(end)` is `endT < startT`. -/

/-- `soilDataServiceImpl.ListSoilDataByDateRange`: no date-order check. -/
def ListSoilDataByDateRange (table : List SoilRow) (vid startT endT : Int) :
    Except String (List SoilRow) :=
  if vid ≤ 0 then .error "invalid vineyard ID"
  else .ok (db_ListSoilDataByDateRange table vid startT endT)

/-- `pestServiceImpl.ListPestDataByDateRange` (`unnamed/part_006`,
`unnamed/part_007`). -/
def ListPestDataByDateRange (table : List PestRow) (vid startT endT : Int) :
    Except String (List PestRow) :=
  if vid ≤ 0 then .error "invalid vineyard ID"
  else if endT < startT then .error "start date must be before end date"
  else .ok (db_ListPestDataByDateRange table vid startT endT)

/-- `weatherServiceImpl.ListWeatherDataByDateRange`
(`internal/clients/weather.go` service generation). -/
def ListWeatherDataByDateRange (table : List WeatherRow) (vid startT endT : Int) :
    Except String (List WeatherRow) :=
  if vid ≤ 0 then .error "invalid vineyard ID"
  else if endT < startT then .error "start date must be before end date"
  else .ok (db_ListWeatherDataByDateRange table vid startT endT)

/-- `imageServiceImpl.FindImagesByDateRange` (`unnamed/part_004`,
`unnamed/part_005`). -/
def FindImagesByDateRange (table : List ImageRow) (vid startT endT : Int) :
    Except String (List ImageRow) :=
  if vid ≤ 0 then .error "invalid vineyard ID"
  else if endT < startT then .error "start date must be before end date"
  else .ok (db_FindImagesByDateRange table vid startT endT)

/-- `satelliteServiceImpl.ListSatelliteImageryByDateRange`
(`unnamed/part_003`). -/
def ListSatelliteImageryByDateRange (table : List SatRow) (vid startT endT : Int) :
    Except String (List SatRow) :=
  if vid ≤ 0 then .error "invalid vineyard ID"
  else if endT < startT then .error "start date must be before end date"
  else .ok (db_ListSatelliteImageryByDateRange table vid startT endT)

/-! ## Environmental snapshot (`db.GetVineyardWithEnvironmentalData`,
`vineyardServiceImpl.GetVineyardWithEnvironmentalData` in `unnamed/part_008`) -/

/-- `model.Vineyard`: besides the scalar columns it owns exactly two
observation sequences — `SoilHealth` and `SatelliteImagery`.  The struct has
no pest or weather field. -/
structure VineyardRec where
  id : Int
  name : String
  location : String
  boundingBox : String
  soilHealth : List SoilRow
  satelliteImagery : List SatRow
deriving Repr, DecidableEq

/-- Oracle view of the store as the snapshot code sees it: each field models
the corresponding `db.DB` method (already-wrapped errors included).  The
pest and weather tables exist in the store (`db.ListPestDataByVineyard`,
`db.ListWeatherDataByVineyard`) even though the snapshot never reads them. -/
structure SnapshotEnv where
  getVineyard : Int → Except String VineyardRec
  getSatelliteImageryForVineyard : Int → Except String (List SatRow)
  getSoilDataForVineyard : Int → Except String (List SoilRow)
  listPestDataByVineyard : Int → Except String (List PestRow)
  listWeatherDataByVineyard : Int → Except String (List WeatherRow)

/-- `db.GetVineyardWithEnvironmentalData`: vineyard, then satellite imagery,
then soil data; the first failure aborts the whole call. -/
def GetVineyardWithEnvironmentalData (env : SnapshotEnv) (vid : Int) :
    Except String VineyardRec :=
  match env.getVineyard vid with
  | .error e => .error ("retrieving vineyard by ID: " ++ e)
  | .ok v =>
    match env.getSatelliteImageryForVineyard vid with
    | .error e => .error ("retrieving satellite imagery for vineyard: " ++ e)
    | .ok sat =>
      match env.getSoilDataForVineyard vid with
      | .error e => .error ("retrieving soil data for vineyard: " ++ e)
      | .ok soil => .ok { v with satelliteImagery := sat, soilHealth := soil }

/-- `vineyardServiceImpl.GetVineyardWithEnvironmentalData`
(`unnamed/part_008`): id guard, then the store call. -/
def service_GetVineyardWithEnvironmentalData (env : SnapshotEnv) (vid : Int) :
    Except String VineyardRec :=
  if vid ≤ 0 then .error "invalid vineyard ID"
  else GetVineyardWithEnvironmentalData env vid

/-! ## Soil save (`db.SaveSoilData`, `soilDataServiceImpl.CreateSoilData`)

The schema (`unnamed/part_013`, both generations) declares
`soil_data.vineyard_id INTEGER NOT NULL` with
`FOREIGN KEY (vineyard_id) REFERENCES vineyards(id)` and
`vineyards.id SERIAL PRIMARY KEY`; the same constraints hold for
`pest_data`.  The database therefore accepts an INSERT exactly when the
referenced vineyard exists, and rejects it with a foreign-key violation
otherwise; the timestamp column is NOT NULL but a zero-valued Go
`time.Time` is a value, not NULL, so it is stored as given. -/

/-- The soil table with its identifier sequence (`id SERIAL ... RETURNING
id`) and the ids present in the `vineyards` table, which the foreign key
checks against. -/
structure SoilStore where
  nextId : Int
  vineyardIds : List Int
  rows : List SoilRow
deriving Repr, DecidableEq

/-- `db.SaveSoilData`: `INSERT ... RETURNING id`, error wrapped as
`error inserting soil data: %w`.  The schema makes the INSERT fail exactly
when `vineyard_id` references no existing vineyard; on success the database
allocates the next identifier, which the method writes back into the
record. -/
def db_SaveSoilData (st : SoilStore) (sd : SoilRow) :
    Except String (SoilStore × SoilRow) :=
  if sd.vineyardID ∈ st.vineyardIds then
    let saved : SoilRow := ⟨st.nextId, sd.vineyardID, sd.sampledAt⟩
    .ok (⟨st.nextId + 1, st.vineyardIds, st.rows ++ [saved]⟩, saved)
  else
    .error "error inserting soil data: violates foreign key constraint"

/-- `soilDataServiceImpl.CreateSoilData`: the only application-level
validation is the nil check (`none` models a nil `*model.SoilData`); the
store result is propagated unchanged. -/
def CreateSoilData (st : SoilStore) (sd : Option SoilRow) :
    Except String (SoilStore × SoilRow) :=
  match sd with
  | none => .error "cannot create nil soil data"
  | some s => db_SaveSoilData st s

/-- The pest table with its identifier sequence and the `vineyards` ids. -/
structure PestStore where
  nextId : Int
  vineyardIds : List Int
  rows : List PestRow
deriving Repr, DecidableEq

/-- `db.SavePestData`: `INSERT ... RETURNING id`, error wrapped as
`inserting pest data: %w`; the foreign key on `vineyard_id` is enforced as
for soil. -/
def db_SavePestData (st : PestStore) (pd : PestRow) :
    Except String (PestStore × PestRow) :=
  if pd.vineyardID ∈ st.vineyardIds then
    let saved : PestRow := ⟨st.nextId, pd.vineyardID, pd.observationDate⟩
    .ok (⟨st.nextId + 1, st.vineyardIds, st.rows ++ [saved]⟩, saved)
  else
    .error "inserting pest data: violates foreign key constraint"

/-- `pestServiceImpl.CreatePestData` (`unnamed/part_006`, `unnamed/part_007`):
nil check only, store result propagated. -/
def CreatePestData (st : PestStore) (pd : Option PestRow) :
    Except String (PestStore × PestRow) :=
  match pd with
  | none => .error "cannot create nil pest data"
  | some p => db_SavePestData st p

/-! ## Concurrent batch save (`unnamed/part_003`,
`satelliteServiceImpl.ConcurrentSaveSatelliteData`)

One goroutine per observation runs `SaveSatelliteData` (upload + metadata
insert, modelled by the `save` oracle); failures go into a channel buffered
to the batch size; after `wg.Wait()` the drain loop returns the first error
it reads.  Channel arrival order is scheduler-dependent, so the drained
sequence is an adversarial parameter constrained (in the theorems) to be a
permutation of the actual failures. -/

/-- Oracle for one `SaveSatelliteData(data, imageReader)` call; image bytes
are modelled as a `String`.  `none` is success. -/
structure BatchEnv where
  save : SatRow → String → Option String

/-- The multiset of errors the goroutines put into `errChan`. -/
def batchFailures (env : BatchEnv) (datas : List SatRow) (imgs : List String) :
    List String :=
  (datas.zip imgs).filterMap (fun p => env.save p.1 p.2)

/-- Observable trace of one `ConcurrentSaveSatelliteData` call. -/
structure BatchTrace where
  result : Except String Unit
  savesLaunched : Nat
  persisted : List SatRow
deriving Repr, DecidableEq

/-- `satelliteServiceImpl.ConcurrentSaveSatelliteData`: the length guard
returns before any goroutine starts; otherwise one save per observation is
launched, all are awaited, the saves that succeeded remain persisted, and
the drain loop yields the first collected error.  `drain` is the channel
contents in arrival order. -/
def ConcurrentSaveSatelliteData (env : BatchEnv) (datas : List SatRow)
    (imgs : List String) (drain : List String) : BatchTrace :=
  if datas.length ≠ imgs.length then
    ⟨.error "data and image slices must be of the same length", 0, []⟩
  else
    ⟨match drain.head? with
      | some e => .error e
      | none => .ok (),
     datas.length,
     (datas.zip imgs).filterMap (fun p => if env.save p.1 p.2 = none then some p.1 else none)⟩

/-! ## Concrete fixtures used to instantiate the theorems -/

/-- A data-source entry as found in `configs/config.yaml`. -/
def sampleDS (b : Bool) : DataSourceConfig :=
  ⟨b, "0 */12 * * *", "UTC", "POST", "https://ingest.example/run", "", "ingestion job"⟩

/-- A registry with one enabled and one disabled source. -/
def sampleCfg : Config :=
  ⟨"proj", "loc", [("satellite", sampleDS true), ("weather", sampleDS false)], ⟨3, "2s"⟩⟩

/-- A registry with two enabled sources. -/
def twoSourceCfg : Config :=
  ⟨"proj", "loc", [("alpha", sampleDS true), ("beta", sampleDS true)], ⟨3, "2s"⟩⟩

/-- External scheduler on which every job already exists. -/
def foundEnv : SchedulerEnv :=
  ⟨fun _ => .found, fun _ _ => some "createJob was reached"⟩

/-- External scheduler with no jobs on which every creation attempt fails. -/
def alwaysFailEnv : SchedulerEnv :=
  ⟨fun _ => .notFound, fun _ _ => some "boom"⟩

/-- External scheduler whose lookup fails with a non-NotFound error while
creation would always succeed. -/
def deniedEnv : SchedulerEnv :=
  ⟨fun _ => .otherError "permission denied", fun _ _ => none⟩

/-- External scheduler with no jobs where creation fails permanently for
`alpha` and succeeds for every other source. -/
def abEnv : SchedulerEnv :=
  ⟨fun _ => .notFound,
   fun jn _ => if jn = jobName twoSourceCfg "alpha" then some "boom" else none⟩

/-- A vineyard row as `db.GetVineyard` returns it (observation sequences
still empty). -/
def sampleVineyard : VineyardRec :=
  ⟨5, "north block", "hillside", "POLYGON((0 0,1 0,1 1,0 1,0 0))", [], []⟩

/-- Snapshot store for vineyard 5 holding one pest record and nothing else. -/
def pestyEnv : SnapshotEnv :=
  ⟨fun _ => .ok sampleVineyard, fun _ => .ok [], fun _ => .ok [],
   fun _ => .ok [⟨1, 5, 10⟩], fun _ => .ok []⟩

/-- Same store with the pest table emptied. -/
def noPestEnv : SnapshotEnv :=
  { pestyEnv with listPestDataByVineyard := fun _ => .ok [] }

/-! ## Shared lemmas about the reconciler -/

/-- A `GetJob` hit short-circuits `ensureJob`: no creation, no sleep. -/
theorem ensureJob_found (env : SchedulerEnv) (cfg : Config) (name : String)
    (h : env.getJob (jobName cfg name) = GetJobOutcome.found) :
    ensureJob env cfg name = ⟨true, 0, [], none⟩ := by
  simp [ensureJob, h]

/-- If every creation attempt fails, the retry loop ends unsuccessfully. -/
theorem createLoop_fail_ok (env : SchedulerEnv) (jn : String)
    (h : ∀ i, (env.createJob jn i).isSome = true) :
    ∀ r i, (createLoop env jn i r).ok = false := by
  intro r
  induction r with
  | zero => intro i; rfl
  | succ r ih =>
    intro i
    cases hc : env.createJob jn i with
    | none => have hi := h i; rw [hc] at hi; simp at hi
    | some e => simp [createLoop, hc, ih]

/-- When every enabled source is already present, `InitializeJobs` logs no
failure and records each enabled source as ensured. -/
theorem initJobsAux_all_found (env : SchedulerEnv) (cfg : Config)
    (l : List (String × DataSourceConfig))
    (h : ∀ p ∈ l, p.2.enabled = true → env.getJob (jobName cfg p.1) = GetJobOutcome.found) :
    (initJobsAux env cfg l).failed = [] ∧
    ∀ p ∈ l, p.2.enabled = true → p.1 ∈ (initJobsAux env cfg l).succeeded := by
  induction l with
  | nil => simp [initJobsAux]
  | cons p rest ih =>
    have hrest := ih (fun q hq hqe => h q (List.mem_cons_of_mem p hq) hqe)
    by_cases hp : p.2.enabled = true
    · have hfound := ensureJob_found env cfg p.1 (h p (List.mem_cons_self p rest) hp)
      refine ⟨by simp [initJobsAux, hp, hfound, hrest.1], ?_⟩
      intro q hq hqe
      rcases List.mem_cons.mp hq with hq1 | hq'
      · subst hq1
        simp [initJobsAux, hp, hfound]
      · have hmem := hrest.2 q hq' hqe
        simp only [initJobsAux, hp, hfound, if_true]
        simp [hmem]
    · have hp' : p.2.enabled = false := by simpa using hp
      refine ⟨by simp [initJobsAux, hp', hrest.1], ?_⟩
      intro q hq hqe
      rcases List.mem_cons.mp hq with hq1 | hq'
      · subst hq1; exact absurd hqe hp
      · have hmem := hrest.2 q hq' hqe
        simpa [initJobsAux, hp'] using hmem

/-! ## Claim theorems -/

/-- C1: if every enabled source's job is already present in the external
scheduler (`GetJob` finds it), a reconciliation run performs zero `CreateJob`
calls, logs no failure, and records every enabled source as ensured — so a
second run over an unchanged registry right after a fully successful one
creates nothing. -/
theorem reconcile_idempotent (env : SchedulerEnv) (cfg : Config)
    (h : ∀ p ∈ cfg.dataSources, p.2.enabled = true →
      env.getJob (jobName cfg p.1) = GetJobOutcome.found) :
    totalCreateCalls env cfg = 0 ∧
    (InitializeJobs env cfg).failed = [] ∧
    ∀ p ∈ cfg.dataSources, p.2.enabled = true →
      p.1 ∈ (InitializeJobs env cfg).succeeded := by
  have haux := initJobsAux_all_found env cfg cfg.dataSources h
  refine ⟨?_, haux.1, haux.2⟩
  unfold totalCreateCalls
  apply List.sum_eq_zero
  intro x hx
  rcases List.mem_map.mp hx with ⟨p, hp, rfl⟩
  rcases List.mem_filter.mp hp with ⟨hpl, hpe⟩
  rw [ensureJob_found env cfg p.1 (h p hpl (by simpa using hpe))]

/-- C1 witness: both findings instantiated on a concrete registry and a
scheduler that already has every job. -/
theorem reconcile_idempotent_witness :
    totalCreateCalls foundEnv sampleCfg = 0 ∧
    (InitializeJobs foundEnv sampleCfg).failed = [] ∧
    ∀ p ∈ sampleCfg.dataSources, p.2.enabled = true →
      p.1 ∈ (InitializeJobs foundEnv sampleCfg).succeeded :=
  reconcile_idempotent foundEnv sampleCfg (by decide)

/-- C2 counterexample: with `maxRetries = 3` in the configuration and a
permanently failing `CreateJob`, the reconciler attempts creation 3 times,
not `maxRetries + 1 = 4` — the loop bound is the hardcoded
`retryCount := 3`, and the retry policy of the configuration is never
read. -/
theorem retryCount_counterexample :
    (ensureJob alwaysFailEnv sampleCfg "satellite").createCalls ≠
      sampleCfg.retryPolicy.maxRetries + 1 := by decide

/-- C2 (amended): for an absent job, `ensureJob` attempts `CreateJob`
exactly 3 times (the hardcoded `retryCount`, independent of
`retryPolicy.maxRetries`); after the i-th failed attempt — the final one
included — it sleeps `2^i` seconds (1s, 2s, 4s); it stops as soon as an
attempt succeeds; on exhaustion it fails carrying the last attempt's
error. -/
theorem ensureJob_retry_semantics (env : SchedulerEnv) (cfg : Config)
    (name : String) (e : Nat → String)
    (hnf : env.getJob (jobName cfg name) = GetJobOutcome.notFound) :
    ((∀ i, env.createJob (jobName cfg name) i = some (e i)) →
      ensureJob env cfg name = ⟨false, 3, [1, 2, 4], some (e 2)⟩) ∧
    (∀ k, k < 3 → (∀ i, i < k → env.createJob (jobName cfg name) i = some (e i)) →
      env.createJob (jobName cfg name) k = none →
      (ensureJob env cfg name).ok = true ∧
      (ensureJob env cfg name).createCalls = k + 1 ∧
      (ensureJob env cfg name).sleeps = (List.range k).map (fun i => 2 ^ i)) := by
  constructor
  · intro h
    simp [ensureJob, hnf, createLoop, h 0, h 1, h 2]
  · intro k hk hfail hsucc
    interval_cases k
    · simp [ensureJob, hnf, createLoop, hsucc]
    · simp [ensureJob, hnf, createLoop, hfail 0 (by norm_num), hsucc, List.range_succ]
    · simp [ensureJob, hnf, createLoop, hfail 0 (by norm_num), hfail 1 (by norm_num),
        hsucc, List.range_succ]

/-- C2 witness: the amended behaviour on a scheduler whose creations all
fail. -/
theorem ensureJob_retry_semantics_witness :
    ensureJob alwaysFailEnv sampleCfg "satellite" = ⟨false, 3, [1, 2, 4], some "boom"⟩ :=
  (ensureJob_retry_semantics alwaysFailEnv sampleCfg "satellite" (fun _ => "boom")
    rfl).1 (fun _ => rfl)

/-- C3 counterexample: when `GetJob` fails with a non-NotFound error while
every creation attempt would succeed, `ensureJob` makes zero `CreateJob`
calls and returns unsuccessfully — it does not proceed into the retry loop
as if the job were absent. -/
theorem getJobError_counterexample :
    (ensureJob deniedEnv sampleCfg "satellite").createCalls = 0 ∧
    (ensureJob deniedEnv sampleCfg "satellite").ok = false := by decide

/-- C3 (amended): a `GetJob` error other than NotFound aborts `ensureJob`
immediately with a wrapped error: no `CreateJob` attempt, no sleep.  Only a
NotFound result leads into the creation retry loop. -/
theorem ensureJob_other_error (env : SchedulerEnv) (cfg : Config)
    (name e : String)
    (h : env.getJob (jobName cfg name) = GetJobOutcome.otherError e) :
    ensureJob env cfg name =
      ⟨false, 0, [], some ("error checking job " ++ name ++ ": " ++ e)⟩ := by
  simp [ensureJob, h]

/-- C3 witness: the early abort on a scheduler whose lookup is denied. -/
theorem ensureJob_other_error_witness :
    ensureJob deniedEnv sampleCfg "satellite" =
      ⟨false, 0, [], some ("error checking job " ++ "satellite" ++ ": " ++ "permission denied")⟩ :=
  ensureJob_other_error deniedEnv sampleCfg "satellite" "permission denied" rfl

/-- C4: in a registry with two enabled sources where every creation attempt
for A fails and B's first attempt succeeds, the run records A as failed (its
error is logged) and B as ensured; A's failure does not prevent B's
`GetJob`/`CreateJob` calls from being made. -/
theorem independent_failure_domains (env : SchedulerEnv) (cfg : Config)
    (A B : String) (dsA dsB : DataSourceConfig)
    (hreg : cfg.dataSources = [(A, dsA), (B, dsB)])
    (hA : dsA.enabled = true) (hB : dsB.enabled = true)
    (hgA : env.getJob (jobName cfg A) = GetJobOutcome.notFound)
    (hgB : env.getJob (jobName cfg B) = GetJobOutcome.notFound)
    (hfailA : ∀ i, (env.createJob (jobName cfg A) i).isSome = true)
    (hokB : env.createJob (jobName cfg B) 0 = none) :
    (InitializeJobs env cfg).failed = [A] ∧
    (InitializeJobs env cfg).succeeded = [B] ∧
    (ensureJob env cfg B).createCalls = 1 := by
  have hAok : (ensureJob env cfg A).ok = false := by
    simp only [ensureJob, hgA]
    exact createLoop_fail_ok env (jobName cfg A) hfailA 3 0
  have hBtrace : ensureJob env cfg B = ⟨true, 1, [], none⟩ := by
    simp [ensureJob, hgB, createLoop, hokB]
  unfold InitializeJobs
  rw [hreg]
  simp [initJobsAux, hA, hB, hAok, hBtrace]

/-- C4 witness: the two-source registry against the scheduler that rejects
every creation for `alpha` and accepts `beta`. -/
theorem independent_failure_domains_witness :
    (InitializeJobs abEnv twoSourceCfg).failed = ["alpha"] ∧
    (InitializeJobs abEnv twoSourceCfg).succeeded = ["beta"] ∧
    (ensureJob abEnv twoSourceCfg "beta").createCalls = 1 :=
  independent_failure_domains abEnv twoSourceCfg "alpha" "beta"
    (sampleDS true) (sampleDS true) rfl rfl rfl rfl rfl
    (fun _ => rfl) (by decide)

/-- C9 counterexample: the job name asserted for the source `"My Source"`
keeps the raw name — it is not the spec's `normalize` image (lower-cased,
spaces to hyphens). -/
theorem jobName_not_normalized :
    jobName sampleCfg "My Source" ≠
      "projects/proj/locations/loc/jobs/" ++ spec_normalizeName "My Source" := by decide

/-- C9 (amended): the job name is
`projects/{projectID}/locations/{locationID}/jobs/{name}` with the source
name used verbatim — no lower-casing and no space-to-hyphen replacement —
so for a fixed configuration distinct source names always yield distinct
job names. -/
theorem jobName_verbatim (cfg : Config) (n1 n2 : String) :
    jobName cfg n1 =
      ("projects/" ++ cfg.projectID ++ "/locations/" ++ cfg.locationID ++ "/jobs/") ++ n1 ∧
    (jobName cfg n1 = jobName cfg n2 → n1 = n2) := by
  constructor
  · simp [jobName, String.append_assoc]
  · intro h
    unfold jobName at h
    have hdata := congrArg String.data h
    simp only [String.data_append] at hdata
    exact String.ext (List.append_cancel_left hdata)

/-- C9 witness: the verbatim construction instantiated on the sample
configuration. -/
theorem jobName_verbatim_witness :
    jobName sampleCfg "satellite" =
      ("projects/" ++ sampleCfg.projectID ++ "/locations/" ++ sampleCfg.locationID ++
        "/jobs/") ++ "satellite" ∧ ("satellite" : String) = "satellite" :=
  ⟨(jobName_verbatim sampleCfg "satellite" "satellite").1,
   (jobName_verbatim sampleCfg "satellite" "satellite").2 rfl⟩

/-- C5 counterexample: the soil service does not validate the date order —
`ListSoilDataByDateRange` on vineyard 5 with `start = 20 > end = 10` passes
the query straight to the store and returns an empty ok result instead of
an InvalidArgument error. -/
theorem soil_dateRange_counterexample :
    ListSoilDataByDateRange [⟨1, 5, 15⟩] 5 20 10 = .ok [] := by decide

/-- C5 (amended): for a positive vineyard id, the pest, weather, image and
satellite services reject `start > end` with an InvalidArgument error before
touching the store; the soil service performs no such check and forwards the
query, whose inclusive `BETWEEN` filter then matches nothing, yielding an
empty ok result; for `start ≤ end` the listings filter with bounds inclusive
on both ends and return an empty sequence, not an error, when nothing
matches. -/
theorem listByDateRange_semantics (vid startT endT : Int) (hv : 0 < vid) :
    (endT < startT →
      (∀ pt, ListPestDataByDateRange pt vid startT endT =
        .error "start date must be before end date") ∧
      (∀ wt, ListWeatherDataByDateRange wt vid startT endT =
        .error "start date must be before end date") ∧
      (∀ it, FindImagesByDateRange it vid startT endT =
        .error "start date must be before end date") ∧
      (∀ st, ListSatelliteImageryByDateRange st vid startT endT =
        .error "start date must be before end date") ∧
      (∀ st, ListSoilDataByDateRange st vid startT endT = .ok [])) ∧
    (∀ st res, ListSoilDataByDateRange st vid startT endT = .ok res →
      ∀ r, r ∈ res ↔ r ∈ st ∧ r.vineyardID = vid ∧
        startT ≤ r.sampledAt ∧ r.sampledAt ≤ endT) ∧
    (∀ pt res, ListPestDataByDateRange pt vid startT endT = .ok res →
      ∀ r, r ∈ res ↔ r ∈ pt ∧ r.vineyardID = vid ∧
        startT ≤ r.observationDate ∧ r.observationDate ≤ endT) ∧
    (∀ wt res, ListWeatherDataByDateRange wt vid startT endT = .ok res →
      ∀ r, r ∈ res ↔ r ∈ wt ∧ r.vineyardID = vid ∧
        startT ≤ r.observationTime ∧ r.observationTime ≤ endT) ∧
    (∀ it res, FindImagesByDateRange it vid startT endT = .ok res →
      ∀ r, r ∈ res ↔ r ∈ it ∧ r.vineyardID = vid ∧
        startT ≤ r.capturedAt ∧ r.capturedAt ≤ endT) ∧
    (∀ st res, ListSatelliteImageryByDateRange st vid startT endT = .ok res →
      ∀ r, r ∈ res ↔ r ∈ st ∧ r.vineyardID = vid ∧
        startT ≤ r.capturedAt ∧ r.capturedAt ≤ endT) := by
  have hv' : ¬ vid ≤ 0 := not_le.mpr hv
  refine ⟨fun hlt => ⟨?_, ?_, ?_, ?_, ?_⟩, ?_, ?_, ?_, ?_, ?_⟩
  · intro pt; simp [ListPestDataByDateRange, hv', hlt]
  · intro wt; simp [ListWeatherDataByDateRange, hv', hlt]
  · intro it; simp [FindImagesByDateRange, hv', hlt]
  · intro st; simp [ListSatelliteImageryByDateRange, hv', hlt]
  · intro st
    simp only [ListSoilDataByDateRange, hv', if_false, Except.ok.injEq]
    apply List.filter_eq_nil_iff.mpr
    intro r _
    simp only [decide_eq_true_eq, not_and]
    intro _ h1 h2
    omega
  · intro st res hres r
    have hres' : db_ListSoilDataByDateRange st vid startT endT = res := by
      simpa [ListSoilDataByDateRange, hv'] using hres
    subst hres'
    simp [db_ListSoilDataByDateRange, List.mem_filter, and_assoc]
  · intro pt res hres r
    by_cases hlt : endT < startT
    · exfalso
      simp [ListPestDataByDateRange, hv', hlt] at hres
    · have hres' : db_ListPestDataByDateRange pt vid startT endT = res := by
        simpa [ListPestDataByDateRange, hv', hlt] using hres
      subst hres'
      simp [db_ListPestDataByDateRange, List.mem_filter, and_assoc]
  · intro wt res hres r
    by_cases hlt : endT < startT
    · exfalso
      simp [ListWeatherDataByDateRange, hv', hlt] at hres
    · have hres' : db_ListWeatherDataByDateRange wt vid startT endT = res := by
        simpa [ListWeatherDataByDateRange, hv', hlt] using hres
      subst hres'
      simp [db_ListWeatherDataByDateRange, List.mem_filter, and_assoc]
  · intro it res hres r
    by_cases hlt : endT < startT
    · exfalso
      simp [FindImagesByDateRange, hv', hlt] at hres
    · have hres' : db_FindImagesByDateRange it vid startT endT = res := by
        simpa [FindImagesByDateRange, hv', hlt] using hres
      subst hres'
      simp [db_FindImagesByDateRange, List.mem_filter, and_assoc]
  · intro st res hres r
    by_cases hlt : endT < startT
    · exfalso
      simp [ListSatelliteImageryByDateRange, hv', hlt] at hres
    · have hres' : db_ListSatelliteImageryByDateRange st vid startT endT = res := by
        simpa [ListSatelliteImageryByDateRange, hv', hlt] using hres
      subst hres'
      simp [db_ListSatelliteImageryByDateRange, List.mem_filter, and_assoc]

/-- C5 witness: the pest service rejects the reversed range
`start = 20, end = 10` on vineyard 5. -/
theorem listByDateRange_semantics_witness :
    ListPestDataByDateRange [] 5 20 10 = .error "start date must be before end date" :=
  ((listByDateRange_semantics 5 20 10 (by norm_num)).1 (by norm_num)).1 []

/-- C6 counterexample: on a store holding a pest record for vineyard 5, the
environmental snapshot of vineyard 5 is identical to the snapshot over the
same store with the pest table emptied — pest (and weather) data are not
part of the snapshot, the vineyard record having no field for them. -/
theorem snapshot_omits_pests :
    GetVineyardWithEnvironmentalData pestyEnv 5 = GetVineyardWithEnvironmentalData noPestEnv 5 ∧
    pestyEnv.listPestDataByVineyard 5 ≠ noPestEnv.listPestDataByVineyard 5 := by decide

/-- C6 (amended): the snapshot either fails as a whole — when the vineyard
lookup fails, or when the satellite-imagery or soil listing fails — or
returns the vineyard carrying exactly two observation sequences, satellite
imagery and soil data (a kind with zero records appearing as an empty
sequence); pest and weather data are never fetched; the service wrapper
additionally rejects non-positive ids. -/
theorem snapshot_semantics (env : SnapshotEnv) (vid : Int) (v : VineyardRec)
    (sat : List SatRow) (soil : List SoilRow) :
    (∀ e, env.getVineyard vid = .error e →
      GetVineyardWithEnvironmentalData env vid =
        .error ("retrieving vineyard by ID: " ++ e)) ∧
    (∀ e, env.getVineyard vid = .ok v →
      env.getSatelliteImageryForVineyard vid = .error e →
      GetVineyardWithEnvironmentalData env vid =
        .error ("retrieving satellite imagery for vineyard: " ++ e)) ∧
    (∀ e, env.getVineyard vid = .ok v →
      env.getSatelliteImageryForVineyard vid = .ok sat →
      env.getSoilDataForVineyard vid = .error e →
      GetVineyardWithEnvironmentalData env vid =
        .error ("retrieving soil data for vineyard: " ++ e)) ∧
    (env.getVineyard vid = .ok v →
      env.getSatelliteImageryForVineyard vid = .ok sat →
      env.getSoilDataForVineyard vid = .ok soil →
      GetVineyardWithEnvironmentalData env vid =
        .ok ⟨v.id, v.name, v.location, v.boundingBox, soil, sat⟩) ∧
    (0 < vid → service_GetVineyardWithEnvironmentalData env vid =
      GetVineyardWithEnvironmentalData env vid) ∧
    (vid ≤ 0 → service_GetVineyardWithEnvironmentalData env vid =
      .error "invalid vineyard ID") := by
  refine ⟨?_, ?_, ?_, ?_, ?_, ?_⟩
  · intro e h; simp [GetVineyardWithEnvironmentalData, h]
  · intro e h1 h2; simp [GetVineyardWithEnvironmentalData, h1, h2]
  · intro e h1 h2 h3; simp [GetVineyardWithEnvironmentalData, h1, h2, h3]
  · intro h1 h2 h3; simp [GetVineyardWithEnvironmentalData, h1, h2, h3]
  · intro h; simp [service_GetVineyardWithEnvironmentalData, not_le.mpr h]
  · intro h; simp [service_GetVineyardWithEnvironmentalData, h]

/-- C6 witness: the success shape on the concrete store with empty
satellite and soil tables. -/
theorem snapshot_semantics_witness :
    GetVineyardWithEnvironmentalData pestyEnv 5 =
      .ok ⟨sampleVineyard.id, sampleVineyard.name, sampleVineyard.location,
        sampleVineyard.boundingBox, [], []⟩ :=
  (snapshot_semantics pestyEnv 5 sampleVineyard [] []).2.2.2.1 rfl rfl rfl

/-- C7 counterexample: a soil observation with a zero-valued timestamp (for
the existing vineyard 5) is accepted: `CreateSoilData` writes it to the
store and allocates id 1 instead of failing with InvalidArgument. -/
theorem createSoilData_counterexample :
    CreateSoilData ⟨1, [5], []⟩ (some ⟨0, 5, 0⟩) =
      .ok (⟨2, [5], [⟨1, 5, 0⟩]⟩, ⟨1, 5, 0⟩) := by
  decide

/-- C7 (amended): the only application-level validation
`CreateSoilData`/`CreatePestData` perform is the nil check (`none` fails
without touching the store); a non-nil observation whose vineyard exists is
inserted — its timestamp stored as given, zero-valued or not — and the store
allocates and returns a fresh identifier distinct from every existing
row's; an observation whose `vineyardId` references no existing vineyard —
in particular any `vineyardId ≤ 0`, vineyard ids being SERIAL-allocated
from 1 — is rejected by the database's foreign-key constraint, a store
error, not an InvalidArgument validation. -/
theorem createSoilData_semantics (st : SoilStore) (sd : SoilRow)
    (pst : PestStore) (pd : PestRow)
    (hfresh : ∀ r ∈ st.rows, r.id < st.nextId) :
    CreateSoilData st none = .error "cannot create nil soil data" ∧
    (sd.vineyardID ∈ st.vineyardIds →
      ∀ st' sd', CreateSoilData st (some sd) = .ok (st', sd') →
        sd'.id = st.nextId ∧ sd'.sampledAt = sd.sampledAt ∧
        (∀ r ∈ st.rows, r.id ≠ sd'.id) ∧
        st'.rows = st.rows ++ [⟨st.nextId, sd.vineyardID, sd.sampledAt⟩] ∧
        ∀ r ∈ st'.rows, r.id < st'.nextId) ∧
    ((∀ v ∈ st.vineyardIds, 0 < v) → sd.vineyardID ≤ 0 →
      CreateSoilData st (some sd) =
        .error "error inserting soil data: violates foreign key constraint") ∧
    CreatePestData pst none = .error "cannot create nil pest data" ∧
    (pd.vineyardID ∈ pst.vineyardIds →
      CreatePestData pst (some pd) =
        .ok (⟨pst.nextId + 1, pst.vineyardIds,
          pst.rows ++ [⟨pst.nextId, pd.vineyardID, pd.observationDate⟩]⟩,
          ⟨pst.nextId, pd.vineyardID, pd.observationDate⟩)) := by
  refine ⟨rfl, ?_, ?_, rfl, ?_⟩
  · intro hmem st' sd' h
    have h' : ((⟨st.nextId + 1, st.vineyardIds,
        st.rows ++ [⟨st.nextId, sd.vineyardID, sd.sampledAt⟩]⟩ : SoilStore),
        (⟨st.nextId, sd.vineyardID, sd.sampledAt⟩ : SoilRow)) = (st', sd') := by
      simpa [CreateSoilData, db_SaveSoilData, hmem] using h
    obtain ⟨rfl, rfl⟩ := Prod.ext_iff.mp h'
    refine ⟨rfl, rfl, ?_, rfl, ?_⟩
    · intro r hr he
      have hlt := hfresh r hr
      have he' : r.id = st.nextId := he
      omega
    · intro r hr
      rcases List.mem_append.mp hr with hold | hnew
      · have := hfresh r hold
        show r.id < st.nextId + 1
        omega
      · have hrn : r = ⟨st.nextId, sd.vineyardID, sd.sampledAt⟩ := by simpa using hnew
        subst hrn
        show st.nextId < st.nextId + 1
        omega
  · intro hpos hle
    have hnot : sd.vineyardID ∉ st.vineyardIds := by
      intro hmem
      have := hpos _ hmem
      omega
    simp [CreateSoilData, db_SaveSoilData, hnot]
  · intro hmem
    simp [CreatePestData, db_SavePestData, hmem]

/-- C7 witness: the amended behaviour on a concrete store — nil rejected,
and a zero-timestamp pest observation for the existing vineyard 5
persisted with a fresh id. -/
theorem createSoilData_semantics_witness :
    CreateSoilData (⟨1, [5], []⟩ : SoilStore) none = .error "cannot create nil soil data" ∧
    CreatePestData (⟨1, [5], []⟩ : PestStore) (some ⟨0, 5, 0⟩) =
      .ok (⟨2, [5], [⟨1, 5, 0⟩]⟩, ⟨1, 5, 0⟩) := by
  have h := createSoilData_semantics ⟨1, [5], []⟩ ⟨0, 5, 0⟩ ⟨1, [5], []⟩ ⟨0, 5, 0⟩
    (by intro r hr; simp at hr)
  exact ⟨h.1, h.2.2.2.2 (by decide)⟩

/-- C8: when the slice lengths agree, the concurrent batch save launches one
save per observation, returns ok exactly when every individual save
succeeded, otherwise returns one of the failed saves' errors (a single
error, whichever the channel yielded first), and every observation whose
own save succeeded stays persisted — no rollback. -/
theorem concurrentSave_first_error (env : BatchEnv) (datas : List SatRow)
    (imgs : List String) (drain : List String)
    (hlen : datas.length = imgs.length)
    (hperm : drain.Perm (batchFailures env datas imgs)) :
    (ConcurrentSaveSatelliteData env datas imgs drain).savesLaunched = datas.length ∧
    ((ConcurrentSaveSatelliteData env datas imgs drain).result = .ok () ↔
      batchFailures env datas imgs = []) ∧
    (∀ e, (ConcurrentSaveSatelliteData env datas imgs drain).result = .error e →
      e ∈ batchFailures env datas imgs) ∧
    (∀ p ∈ datas.zip imgs, env.save p.1 p.2 = none →
      p.1 ∈ (ConcurrentSaveSatelliteData env datas imgs drain).persisted) := by
  have hne : ¬ datas.length ≠ imgs.length := by simp [hlen]
  refine ⟨by simp [ConcurrentSaveSatelliteData, hne], ?_, ?_, ?_⟩
  · simp only [ConcurrentSaveSatelliteData, hne, if_false]
    cases drain with
    | nil =>
      simp only [List.head?]
      constructor
      · intro _
        exact (List.Perm.nil_eq hperm).symm
      · intro _; trivial
    | cons d ds =>
      simp only [List.head?]
      constructor
      · intro h; exact absurd h (by simp)
      · intro h
        have : d ∈ batchFailures env datas imgs := hperm.mem_iff.mp (List.mem_cons_self d ds)
        rw [h] at this
        exact absurd this (List.not_mem_nil d)
  · intro e
    simp only [ConcurrentSaveSatelliteData, hne, if_false]
    cases drain with
    | nil => intro h; exact absurd h (by simp [List.head?])
    | cons d ds =>
      simp only [List.head?]
      intro h
      have hd : d = e := by simpa using h
      subst hd
      exact hperm.mem_iff.mp (List.mem_cons_self d ds)
  · intro p hp hsave
    simp only [ConcurrentSaveSatelliteData, hne, if_false]
    exact List.mem_filterMap.mpr ⟨p, hp, by simp [hsave]⟩

/-- C8 witness: a one-element batch whose save succeeds. -/
theorem concurrentSave_first_error_witness :
    (ConcurrentSaveSatelliteData ⟨fun _ _ => none⟩ [⟨1, 5, "u", 3⟩] ["img"] []).result =
      .ok () :=
  ((concurrentSave_first_error ⟨fun _ _ => none⟩ [⟨1, 5, "u", 3⟩] ["img"] []
    rfl List.Perm.nil).2.1).mpr rfl

/-- C10: when the observation and image-reader slices differ in length, the
concurrent batch save returns the length-mismatch error before launching any
individual save, leaving the store untouched. -/
theorem concurrentSave_length_mismatch (env : BatchEnv) (datas : List SatRow)
    (imgs : List String) (drain : List String)
    (h : datas.length ≠ imgs.length) :
    ConcurrentSaveSatelliteData env datas imgs drain =
      ⟨.error "data and image slices must be of the same length", 0, []⟩ := by
  simp [ConcurrentSaveSatelliteData, h]

/-- C10 witness: one observation, no image reader. -/
theorem concurrentSave_length_mismatch_witness :
    ConcurrentSaveSatelliteData ⟨fun _ _ => none⟩ [⟨1, 5, "u", 3⟩] [] [] =
      ⟨.error "data and image slices must be of the same length", 0, []⟩ :=
  concurrentSave_length_mismatch ⟨fun _ _ => none⟩ [⟨1, 5, "u", 3⟩] [] [] (by decide)

end Viticulture
